import Mathlib

/-!
Verification development for the EduSaaS backend (src/main.py, src/schemas.py).

The repository is a CRUD backend: per-kind pydantic schemas (schemas.py) gate
what may be written; a generic document-store gateway (`create_document`,
`get_documents` from database.py) persists and queries documents keyed by a
kind name acting as a namespace.

Documents are modelled as association lists from field names to dynamic
values; the pydantic models become lists of field descriptors and an
executable validator; the store gateway becomes explicit state passing over a
`Store` record.
-/

set_option maxHeartbeats 1000000

namespace EduSaaS

/-- Dynamic JSON-like values stored in documents.  Floating-point numbers in
this repository occur only as literal defaults that are whole numbers
(`progress_percent = 0.0`), so a float is modelled by its integer value.
Timestamps (`datetime`) are modelled as abstract ticks. -/
inductive Value where
  | str : String → Value
  | int : Int → Value
  | float : Int → Value
  | bool : Bool → Value
  | time : Nat → Value
  | null : Value
  | list : List Value → Value
  | dict : List (String × Value) → Value

mutual

/-- Boolean equality on values (structural). -/
def valueBeq : Value → Value → Bool
  | .str a, .str b => a == b
  | .int a, .int b => a == b
  | .float a, .float b => a == b
  | .bool a, .bool b => a == b
  | .time a, .time b => a == b
  | .null, .null => true
  | .list as, .list bs => valueListBeq as bs
  | .dict as, .dict bs => valueDictBeq as bs
  | _, _ => false

/-- Boolean equality on lists of values. -/
def valueListBeq : List Value → List Value → Bool
  | [], [] => true
  | a :: as, b :: bs => valueBeq a b && valueListBeq as bs
  | _, _ => false

/-- Boolean equality on string-keyed association lists of values. -/
def valueDictBeq : List (String × Value) → List (String × Value) → Bool
  | [], [] => true
  | (k1, v1) :: as, (k2, v2) :: bs => k1 == k2 && valueBeq v1 v2 && valueDictBeq as bs
  | _, _ => false

end

mutual

theorem valueBeq_iff : ∀ a b, valueBeq a b = true ↔ a = b
  | .str _, .str _ => by simp [valueBeq]
  | .int _, .int _ => by simp [valueBeq]
  | .float _, .float _ => by simp [valueBeq]
  | .bool _, .bool _ => by simp [valueBeq]
  | .time _, .time _ => by simp [valueBeq]
  | .null, .null => by simp [valueBeq]
  | .list as, .list bs => by simp [valueBeq, valueListBeq_iff as bs]
  | .dict as, .dict bs => by simp [valueBeq, valueDictBeq_iff as bs]
  | .str _, .int _ => by simp [valueBeq]
  | .str _, .float _ => by simp [valueBeq]
  | .str _, .bool _ => by simp [valueBeq]
  | .str _, .time _ => by simp [valueBeq]
  | .str _, .null => by simp [valueBeq]
  | .str _, .list _ => by simp [valueBeq]
  | .str _, .dict _ => by simp [valueBeq]
  | .int _, .str _ => by simp [valueBeq]
  | .int _, .float _ => by simp [valueBeq]
  | .int _, .bool _ => by simp [valueBeq]
  | .int _, .time _ => by simp [valueBeq]
  | .int _, .null => by simp [valueBeq]
  | .int _, .list _ => by simp [valueBeq]
  | .int _, .dict _ => by simp [valueBeq]
  | .float _, .str _ => by simp [valueBeq]
  | .float _, .int _ => by simp [valueBeq]
  | .float _, .bool _ => by simp [valueBeq]
  | .float _, .time _ => by simp [valueBeq]
  | .float _, .null => by simp [valueBeq]
  | .float _, .list _ => by simp [valueBeq]
  | .float _, .dict _ => by simp [valueBeq]
  | .bool _, .str _ => by simp [valueBeq]
  | .bool _, .int _ => by simp [valueBeq]
  | .bool _, .float _ => by simp [valueBeq]
  | .bool _, .time _ => by simp [valueBeq]
  | .bool _, .null => by simp [valueBeq]
  | .bool _, .list _ => by simp [valueBeq]
  | .bool _, .dict _ => by simp [valueBeq]
  | .time _, .str _ => by simp [valueBeq]
  | .time _, .int _ => by simp [valueBeq]
  | .time _, .float _ => by simp [valueBeq]
  | .time _, .bool _ => by simp [valueBeq]
  | .time _, .null => by simp [valueBeq]
  | .time _, .list _ => by simp [valueBeq]
  | .time _, .dict _ => by simp [valueBeq]
  | .null, .str _ => by simp [valueBeq]
  | .null, .int _ => by simp [valueBeq]
  | .null, .float _ => by simp [valueBeq]
  | .null, .bool _ => by simp [valueBeq]
  | .null, .time _ => by simp [valueBeq]
  | .null, .list _ => by simp [valueBeq]
  | .null, .dict _ => by simp [valueBeq]
  | .list _, .str _ => by simp [valueBeq]
  | .list _, .int _ => by simp [valueBeq]
  | .list _, .float _ => by simp [valueBeq]
  | .list _, .bool _ => by simp [valueBeq]
  | .list _, .time _ => by simp [valueBeq]
  | .list _, .null => by simp [valueBeq]
  | .list _, .dict _ => by simp [valueBeq]
  | .dict _, .str _ => by simp [valueBeq]
  | .dict _, .int _ => by simp [valueBeq]
  | .dict _, .float _ => by simp [valueBeq]
  | .dict _, .bool _ => by simp [valueBeq]
  | .dict _, .time _ => by simp [valueBeq]
  | .dict _, .null => by simp [valueBeq]
  | .dict _, .list _ => by simp [valueBeq]

theorem valueListBeq_iff : ∀ as bs, valueListBeq as bs = true ↔ as = bs
  | [], [] => by simp [valueListBeq]
  | a :: as, b :: bs => by
      simp [valueListBeq, valueBeq_iff a b, valueListBeq_iff as bs]
  | [], _ :: _ => by simp [valueListBeq]
  | _ :: _, [] => by simp [valueListBeq]

theorem valueDictBeq_iff : ∀ as bs, valueDictBeq as bs = true ↔ as = bs
  | [], [] => by simp [valueDictBeq]
  | (_, v1) :: as, (_, v2) :: bs => by
      simp [valueDictBeq, valueBeq_iff v1 v2, valueDictBeq_iff as bs, and_assoc]
  | [], _ :: _ => by simp [valueDictBeq]
  | _ :: _, [] => by simp [valueDictBeq]

end

instance : DecidableEq Value := fun a b =>
  decidable_of_iff (valueBeq a b = true) (valueBeq_iff a b)

/-- A document: an ordered association list of field name / value pairs. -/
abbrev Doc := List (String × Value)

/-- First-match lookup of a field in a document. -/
def lookupField : Doc → String → Option Value
  | [], _ => none
  | (k, v) :: rest, n => if k = n then some v else lookupField rest n

/-- Field types allowed inside a nested object (the only nested object in the
schemas is `QuizQuestion`, whose fields are `str`, `int` and `List[str]`). -/
inductive NType where
  | nstr : NType
  | nint : NType
  | nlistStr : NType
deriving DecidableEq

/-- Types of top-level schema fields, translated from the pydantic
annotations in src/schemas.py:
`str`, `int`, `float`, `bool`, `datetime`, `Dict[str, Any]`, `List[t]`,
`Literal[...]` (string enumerations), `Optional[t]`, and nested objects
(`QuizQuestion`) given by their own required field list. -/
inductive FType where
  | str : FType
  | int : FType
  | float : FType
  | bool : FType
  | ts : FType
  | dict : FType
  | list : FType → FType
  | lit : List String → FType
  | opt : FType → FType
  | obj : List (String × NType) → FType
deriving DecidableEq

/-- Type check of a value against a nested-object field type. -/
def ntypeOk : NType → Value → Bool
  | .nstr, .str _ => true
  | .nint, .int _ => true
  | .nlistStr, .list vs => vs.all fun v =>
      match v with
      | .str _ => true
      | _ => false
  | _, _ => false

/-- Type check of a value against a field type, following pydantic semantics
on the annotations used in src/schemas.py: `float` accepts integers,
`Literal[...]` accepts exactly its member strings, `Optional[t]` accepts
`None`, nested objects require every declared field present and well typed
(extra fields are ignored, as pydantic does by default). -/
def typeOk : FType → Value → Bool
  | .str, .str _ => true
  | .int, .int _ => true
  | .float, .float _ => true
  | .float, .int _ => true
  | .bool, .bool _ => true
  | .ts, .time _ => true
  | .dict, .dict _ => true
  | .list t, .list vs => vs.all (typeOk t)
  | .lit allowed, .str s => allowed.contains s
  | .opt _, .null => true
  | .opt t, v => typeOk t v
  | .obj fields, .dict kvs => fields.all fun p =>
      match lookupField kvs p.1 with
      | some v => ntypeOk p.2 v
      | none => false
  | _, _ => false

/-- A field descriptor: name, type, and default value (`none` means the field
is required, mirroring pydantic where a field without a default is
required). -/
structure FieldSpec where
  name : String
  type : FType
  default : Option Value
deriving DecidableEq

/-- Schema `User` (src/schemas.py lines 16-21). -/
def userFields : List FieldSpec :=
  [ ⟨"name", .str, none⟩,
    ⟨"email", .str, none⟩,
    ⟨"role", .lit ["teacher", "student", "admin"], some (.str "student")⟩,
    ⟨"avatar_url", .opt .str, some .null⟩,
    ⟨"is_active", .bool, some (.bool true)⟩ ]

/-- Schema `Course` (src/schemas.py lines 23-31). -/
def courseFields : List FieldSpec :=
  [ ⟨"title", .str, none⟩,
    ⟨"description", .opt .str, some (.str "")⟩,
    ⟨"teacher_id", .str, none⟩,
    ⟨"category", .opt .str, some .null⟩,
    ⟨"tags", .list .str, some (.list [])⟩,
    ⟨"thumbnail_url", .opt .str, some .null⟩,
    ⟨"level", .lit ["beginner", "intermediate", "advanced"], some (.str "beginner")⟩,
    ⟨"is_published", .bool, some (.bool false)⟩ ]

/-- Schema `Lesson` (src/schemas.py lines 33-39). -/
def lessonFields : List FieldSpec :=
  [ ⟨"course_id", .str, none⟩,
    ⟨"title", .str, none⟩,
    ⟨"video_url", .opt .str, some .null⟩,
    ⟨"content", .opt .str, some .null⟩,
    ⟨"order", .int, some (.int 0)⟩,
    ⟨"duration_minutes", .opt .int, some .null⟩ ]

/-- Schema `Assignment` (src/schemas.py lines 41-46). -/
def assignmentFields : List FieldSpec :=
  [ ⟨"course_id", .str, none⟩,
    ⟨"title", .str, none⟩,
    ⟨"instructions", .str, none⟩,
    ⟨"due_date", .opt .ts, some .null⟩,
    ⟨"max_points", .int, some (.int 100)⟩ ]

/-- The fields of a `QuizQuestion` (src/schemas.py lines 48-51), all
required. -/
def quizQuestionFields : List (String × NType) :=
  [ ("question", .nstr), ("options", .nlistStr), ("correct_index", .nint) ]

/-- Schema `Quiz` (src/schemas.py lines 53-57). -/
def quizFields : List FieldSpec :=
  [ ⟨"course_id", .str, none⟩,
    ⟨"title", .str, none⟩,
    ⟨"questions", .list (.obj quizQuestionFields), some (.list [])⟩,
    ⟨"time_limit_minutes", .opt .int, some .null⟩ ]

/-- Schema `Enrollment` (src/schemas.py lines 59-63). -/
def enrollmentFields : List FieldSpec :=
  [ ⟨"course_id", .str, none⟩,
    ⟨"student_id", .str, none⟩,
    ⟨"status", .lit ["active", "completed", "dropped"], some (.str "active")⟩,
    ⟨"progress_percent", .float, some (.float 0)⟩ ]

/-- Schema `Submission` (src/schemas.py lines 65-71). -/
def submissionFields : List FieldSpec :=
  [ ⟨"assignment_id", .str, none⟩,
    ⟨"student_id", .str, none⟩,
    ⟨"content_url", .opt .str, some .null⟩,
    ⟨"content_text", .opt .str, some .null⟩,
    ⟨"grade", .opt .float, some .null⟩,
    ⟨"feedback", .opt .str, some .null⟩ ]

/-- Schema `QuizAttempt` (src/schemas.py lines 73-77). -/
def quizAttemptFields : List FieldSpec :=
  [ ⟨"quiz_id", .str, none⟩,
    ⟨"student_id", .str, none⟩,
    ⟨"answers", .list .int, none⟩,
    ⟨"score", .opt .float, some .null⟩ ]

/-- Schema `Subscription` (src/schemas.py lines 79-83). -/
def subscriptionFields : List FieldSpec :=
  [ ⟨"user_id", .str, none⟩,
    ⟨"plan", .lit ["free", "pro", "team", "enterprise"], some (.str "free")⟩,
    ⟨"status", .lit ["active", "past_due", "canceled"], some (.str "active")⟩,
    ⟨"renews_at", .opt .ts, some .null⟩ ]

/-- Schema `Activity` (src/schemas.py lines 85-90). -/
def activityFields : List FieldSpec :=
  [ ⟨"user_id", .str, none⟩,
    ⟨"action", .str, none⟩,
    ⟨"resource_type", .str, none⟩,
    ⟨"resource_id", .str, none⟩,
    ⟨"metadata", .dict, some (.dict [])⟩ ]

/-- The schema registry keyed by lower-cased kind name
(src/schemas.py lines 96-107). -/
def SCHEMAS : List (String × List FieldSpec) :=
  [ ("user", userFields),
    ("course", courseFields),
    ("lesson", lessonFields),
    ("assignment", assignmentFields),
    ("quiz", quizFields),
    ("enrollment", enrollmentFields),
    ("submission", submissionFields),
    ("quizattempt", quizAttemptFields),
    ("subscription", subscriptionFields),
    ("activity", activityFields) ]

/-- Lookup of a kind in the registry. -/
def findKind : List (String × List FieldSpec) → String → Option (List FieldSpec)
  | [], _ => none
  | (k, fs) :: rest, n => if k = n then some fs else findKind rest n

/-- The declared field names of a kind (empty for an unknown kind). -/
def declaredFields (kind : String) : List String :=
  ((findKind SCHEMAS kind).getD []).map (·.name)

/-- Error taxonomy of the core (spec §7): field-validation failure listing
every failing field, unknown kind, and store unavailable. -/
inductive ApiError where
  | validationErr : List String → ApiError
  | unknownKindErr : ApiError
  | storeUnavailableErr : ApiError
deriving DecidableEq

/-- Outcome of validating one field: the resulting binding if the field is
acceptable (the supplied value when present and well typed, else the declared
default), or `none` on failure. -/
def fieldResult (payload : Doc) (f : FieldSpec) : Option (String × Value) :=
  match lookupField payload f.name with
  | some v => if typeOk f.type v then some (f.name, v) else none
  | none =>
    match f.default with
    | some d => some (f.name, d)
    | none => none

/-- Whether a field fails validation against a payload: present with a
mismatched type, or required but absent. -/
def fieldFails (payload : Doc) (f : FieldSpec) : Bool :=
  match lookupField payload f.name with
  | some v => ! typeOk f.type v
  | none => f.default.isNone

/-- Schema validation of a raw payload against a kind, following pydantic
model construction on the schemas of src/schemas.py: every declared field is
checked (required present, type and literal membership respected), declared
defaults are filled for omitted optional fields, extra payload fields are
ignored, and all failing fields are accumulated into one error. -/
def validate (kind : String) (payload : Doc) : Except ApiError Doc :=
  match findKind SCHEMAS kind with
  | none => .error .unknownKindErr
  | some specs =>
    let errs := (specs.filter (fieldFails payload)).map (·.name)
    if errs = [] then .ok (specs.filterMap (fieldResult payload))
    else .error (.validationErr errs)

example : validate "course" [("title", .str "T"), ("teacher_id", .str "u1")] =
    .ok [ ("title", .str "T"), ("description", .str ""), ("teacher_id", .str "u1"),
          ("category", .null), ("tags", .list []), ("thumbnail_url", .null),
          ("level", .str "beginner"), ("is_published", .bool false) ] := by rfl

example : validate "course" [("teacher_id", .int 3), ("title", .str "T"), ("level", .str "expert")] =
    .error (.validationErr ["teacher_id", "level"]) := by rfl

/-- Modelled from the spec: the connection lifecycle states of the store
handle (`Uninitialized -> Connecting -> Connected | Failed`, spec §4.2);
database.py, which holds the handle, is not part of src/. -/
inductive HandleState where
  | uninitialized : HandleState
  | connecting : HandleState
  | connected : HandleState
  | failed : HandleState
deriving DecidableEq

/-- Modelled from the spec: the document store's state — the process-wide
handle state, one namespace of documents per kind name, a counter feeding
freshly generated identifiers, and a clock feeding creation timestamps
(database.py is not part of src/). -/
structure Store where
  handle : HandleState
  data : List (String × List Doc)
  nextId : Nat
  clock : Nat
deriving DecidableEq

/-- Lookup of a namespace in the store data. -/
def findNs : List (String × List Doc) → String → Option (List Doc)
  | [], _ => none
  | (k, ds) :: rest, n => if k = n then some ds else findNs rest n

/-- The documents currently held in a namespace (empty if absent). -/
def Store.namespaceDocs (s : Store) (kind : String) : List Doc :=
  (findNs s.data kind).getD []

/-- Append a document at the end of a namespace, creating the namespace if it
does not exist yet. -/
def insertNs : List (String × List Doc) → String → Doc → List (String × List Doc)
  | [], kind, d => [(kind, [d])]
  | (k, ds) :: rest, kind, d =>
    if k = kind then (k, ds ++ [d]) :: rest
    else (k, ds) :: insertNs rest kind d

/-- Stamp a document with its generated identifier and creation timestamp;
the two attributes are added alongside the declared fields. -/
def stampDoc (d : Doc) (id : Nat) (clock : Nat) : Doc :=
  d ++ [("_id", .int (Int.ofNat id)), ("created_at", .time clock)]

/-- Modelled from the spec: `create(kind, document)` of the Document Store
Gateway (`create_document` in database.py, which is not part of src/) —
stamps the document with a freshly generated unique identifier and a
server-side creation timestamp, appends it to the namespace named `kind`,
and returns the generated identifier; fails with `StoreUnavailableError`
when the handle is not `Connected`. -/
def create_document (s : Store) (kind : String) (d : Doc) : Except ApiError (Nat × Store) :=
  if s.handle = .connected then
    .ok (s.nextId,
      { handle := s.handle,
        data := insertNs s.data kind (stampDoc d s.nextId s.clock),
        nextId := s.nextId + 1,
        clock := s.clock + 1 })
  else .error .storeUnavailableErr

/-- Whether a document satisfies every equality constraint of a filter
(conjunctive exact match; a document missing a filtered field does not
match). -/
def matchesFilter (filt : Doc) (d : Doc) : Bool :=
  filt.all fun p =>
    match lookupField d p.1 with
    | some v => valueBeq v p.2
    | none => false

/-- Modelled from the spec: `list(kind, filter)` of the Document Store
Gateway (`get_documents` in database.py, which is not part of src/) —
returns every document of the namespace named `kind` matching all equality
constraints of the filter, in store order; fails with
`StoreUnavailableError` when the handle is not `Connected`. -/
def get_documents (s : Store) (kind : String) (filt : Doc) : Except ApiError (List Doc) :=
  if s.handle = .connected then
    .ok ((s.namespaceDocs kind).filter (matchesFilter filt))
  else .error .storeUnavailableErr

/-- The schema-introspection endpoint (src/main.py lines 29-31): returns the
registry dump without touching the store. -/
def get_schema (_s : Store) : Except ApiError (List (String × List FieldSpec)) :=
  .ok SCHEMAS

/-- The validate-then-insert composition shared by every create handler of
src/main.py: construct the kind's pydantic model from the handler's keyword
arguments (schema validation), then persist it through the gateway.  On
validation failure the model constructor raises before `create_document` is
reached, so the store is returned unchanged. -/
def createViaGateway (kind : String) (payload : Doc) (s : Store) :
    Except ApiError Nat × Store :=
  match validate kind payload with
  | .error e => (.error e, s)
  | .ok d =>
    match create_document s kind d with
    | .error e => (.error e, s)
    | .ok (id, s2) => (.ok id, s2)

/-- Request shape `CreateCourseRequest` (src/main.py lines 63-70). -/
structure CreateCourseRequest where
  title : String
  description : Option String := some ""
  teacher_id : String
  category : Option String := none
  tags : List String := []
  thumbnail_url : Option String := none
  level : String := "beginner"

/-- An optional string rendered as a stored value (`None` becomes null). -/
def optStrVal : Option String → Value
  | some s => .str s
  | none => .null

/-- The keyword arguments passed to `Course(...)` by `create_course`
(src/main.py lines 74-83): every request field forwarded verbatim and
`is_published` fixed to `False`. -/
def courseKwargs (r : CreateCourseRequest) : Doc :=
  [ ("title", .str r.title),
    ("description", optStrVal r.description),
    ("teacher_id", .str r.teacher_id),
    ("category", optStrVal r.category),
    ("tags", .list (r.tags.map .str)),
    ("thumbnail_url", optStrVal r.thumbnail_url),
    ("level", .str r.level),
    ("is_published", .bool false) ]

/-- Handler `create_course` (src/main.py lines 72-85): validate the constructed
`Course` model and persist it in namespace "course". -/
def create_course (r : CreateCourseRequest) (s : Store) : Except ApiError Nat × Store :=
  createViaGateway "course" (courseKwargs r) s

/-- Handler `list_courses` (src/main.py lines 87-90): all documents of namespace
"course", no filter. -/
def list_courses (s : Store) : Except ApiError (List Doc) :=
  get_documents s "course" []

/-- The filter contributed by one optional query parameter, following the
handlers of src/main.py: the constraint is added only when the parameter is
truthy, so both absence and the empty string contribute nothing. -/
def optQueryFilter (name : String) (v : Option String) : Doc :=
  match v with
  | some s => if s = "" then [] else [(name, .str s)]
  | none => []

/-- Handler `list_lessons` (src/main.py lines 105-109). -/
def list_lessons (s : Store) (course_id : Option String) : Except ApiError (List Doc) :=
  get_documents s "lesson" (optQueryFilter "course_id" course_id)

/-- Handler `list_enrollments` (src/main.py lines 162-170): conjunctive filters from
the two optional query parameters. -/
def list_enrollments (s : Store) (course_id student_id : Option String) :
    Except ApiError (List Doc) :=
  get_documents s "enrollment"
    (optQueryFilter "course_id" course_id ++ optQueryFilter "student_id" student_id)

/-- Handler `list_subscriptions` (src/main.py lines 223-227). -/
def list_subscriptions (s : Store) (user_id : Option String) : Except ApiError (List Doc) :=
  get_documents s "subscription" (optQueryFilter "user_id" user_id)

/-- Boolean equality on optional values. -/
def optValBeq : Option Value → Option Value → Bool
  | some a, some b => valueBeq a b
  | none, none => true
  | _, _ => false

/-- Whether two documents agree on every field of a given list. -/
def declEq (x d : Doc) (fields : List String) : Bool :=
  fields.all fun k => optValBeq (lookupField x k) (lookupField d k)

theorem optValBeq_iff (a b : Option Value) : optValBeq a b = true ↔ a = b := by
  cases a <;> cases b <;> simp [optValBeq, valueBeq_iff]

theorem declEq_iff (x d : Doc) (fields : List String) :
    declEq x d fields = true ↔ ∀ k ∈ fields, lookupField x k = lookupField d k := by
  simp [declEq, List.all_eq_true, optValBeq_iff]

theorem lookupField_append_some {a : Doc} {k : String} {v : Value} (b : Doc)
    (h : lookupField a k = some v) : lookupField (a ++ b) k = some v := by
  induction a with
  | nil => simp [lookupField] at h
  | cons p rest ih =>
    obtain ⟨pk, pv⟩ := p
    by_cases hk : pk = k
    · simpa [lookupField, hk] using h
    · rw [List.cons_append]
      rw [lookupField, if_neg hk] at h
      rw [lookupField, if_neg hk]
      exact ih h

theorem lookupField_append_none {a : Doc} {k : String} (b : Doc)
    (h : lookupField a k = none) : lookupField (a ++ b) k = lookupField b k := by
  induction a with
  | nil => simp [lookupField]
  | cons p rest ih =>
    obtain ⟨pk, pv⟩ := p
    by_cases hk : pk = k
    · simp [lookupField, hk] at h
    · rw [lookupField, if_neg hk] at h
      rw [List.cons_append, lookupField, if_neg hk]
      exact ih h

theorem stampDoc_lookup_other {k : String} (d : Doc) (id clock : Nat)
    (h1 : k ≠ "_id") (h2 : k ≠ "created_at") :
    lookupField (stampDoc d id clock) k = lookupField d k := by
  cases hv : lookupField d k with
  | some v => exact lookupField_append_some _ hv
  | none =>
    rw [stampDoc, lookupField_append_none _ hv]
    simp [lookupField, Ne.symm h1, Ne.symm h2]

theorem stampDoc_lookup_id (d : Doc) (id clock : Nat)
    (h : lookupField d "_id" = none) :
    lookupField (stampDoc d id clock) "_id" = some (.int (Int.ofNat id)) := by
  rw [stampDoc, lookupField_append_none _ h]
  simp [lookupField]

theorem stampDoc_lookup_created (d : Doc) (id clock : Nat)
    (h : lookupField d "created_at" = none) :
    lookupField (stampDoc d id clock) "created_at" = some (.time clock) := by
  rw [stampDoc, lookupField_append_none _ h]
  simp [lookupField]

theorem matchesFilter_iff (filt d : Doc) :
    matchesFilter filt d = true ↔ ∀ p ∈ filt, lookupField d p.1 = some p.2 := by
  simp only [matchesFilter, List.all_eq_true]
  refine forall₂_congr fun p _ => ?_
  cases h : lookupField d p.1 with
  | some v => simp [valueBeq_iff]
  | none => simp

theorem matchesFilter_nil (d : Doc) : matchesFilter [] d = true := rfl

theorem findNs_insertNs_self (data : List (String × List Doc)) (kind : String) (d : Doc) :
    findNs (insertNs data kind d) kind = some ((findNs data kind).getD [] ++ [d]) := by
  induction data with
  | nil => simp [insertNs, findNs]
  | cons p rest ih =>
    obtain ⟨k, ds⟩ := p
    by_cases hk : k = kind
    · simp [insertNs, findNs, hk]
    · simp [insertNs, findNs, hk, ih]

theorem create_document_connected {s : Store} {kind : String} {d : Doc}
    (h : s.handle = .connected) :
    create_document s kind d =
      .ok (s.nextId,
        { handle := s.handle,
          data := insertNs s.data kind (stampDoc d s.nextId s.clock),
          nextId := s.nextId + 1,
          clock := s.clock + 1 }) := by
  simp [create_document, h]

theorem namespaceDocs_insert (s : Store) (kind : String) (d : Doc) :
    Store.namespaceDocs
      { handle := s.handle,
        data := insertNs s.data kind d,
        nextId := s.nextId + 1,
        clock := s.clock + 1 } kind = s.namespaceDocs kind ++ [d] := by
  simp [Store.namespaceDocs, findNs_insertNs_self]

theorem get_documents_connected {s : Store} {kind : String} (filt : Doc)
    (h : s.handle = .connected) :
    get_documents s kind filt = .ok ((s.namespaceDocs kind).filter (matchesFilter filt)) := by
  simp [get_documents, h]

theorem fieldResult_name {payload : Doc} {f : FieldSpec} {p : String × Value}
    (h : fieldResult payload f = some p) : p.1 = f.name := by
  unfold fieldResult at h
  cases hv : lookupField payload f.name with
  | some v =>
    rw [hv] at h
    by_cases ht : typeOk f.type v = true
    · simp [ht] at h
      simp [← h]
    · simp [ht] at h
  | none =>
    rw [hv] at h
    cases hd : f.default with
    | some dv => rw [hd] at h; simp at h; simp [← h]
    | none => rw [hd] at h; simp at h

theorem fieldResult_of_not_fails {payload : Doc} {f : FieldSpec}
    (h : fieldFails payload f = false) :
    ∃ v, fieldResult payload f = some (f.name, v) := by
  unfold fieldFails at h
  unfold fieldResult
  cases hv : lookupField payload f.name with
  | some v =>
    rw [hv] at h
    simp only [Bool.not_eq_false'] at h
    exact ⟨v, by simp [h]⟩
  | none =>
    rw [hv] at h
    cases hd : f.default with
    | some dv => exact ⟨dv, by simp⟩
    | none => rw [hd] at h; simp at h

theorem fieldResult_default {payload : Doc} {f : FieldSpec} {dv : Value}
    (hv : lookupField payload f.name = none) (hd : f.default = some dv) :
    fieldResult payload f = some (f.name, dv) := by
  unfold fieldResult
  rw [hv, hd]

theorem fieldResult_present {payload : Doc} {f : FieldSpec} {v : Value}
    (hv : lookupField payload f.name = some v) (ht : typeOk f.type v = true) :
    fieldResult payload f = some (f.name, v) := by
  unfold fieldResult
  rw [hv]
  simp [ht]

theorem validate_ok_of {kind : String} {specs : List FieldSpec} {payload : Doc}
    (h : findKind SCHEMAS kind = some specs)
    (hok : ∀ f ∈ specs, fieldFails payload f = false) :
    validate kind payload = .ok (specs.filterMap (fieldResult payload)) := by
  unfold validate
  rw [h]
  have hfil : specs.filter (fieldFails payload) = [] := by
    rw [List.filter_eq_nil_iff]
    intro f hf
    simp [hok f hf]
  simp [hfil]

theorem validate_ok_elim {kind : String} {payload : Doc} {d : Doc}
    (h : validate kind payload = .ok d) :
    ∃ specs, findKind SCHEMAS kind = some specs ∧
      (∀ f ∈ specs, fieldFails payload f = false) ∧
      d = specs.filterMap (fieldResult payload) := by
  unfold validate at h
  cases hk : findKind SCHEMAS kind with
  | none => rw [hk] at h; simp at h
  | some specs =>
    rw [hk] at h
    refine ⟨specs, rfl, ?_, ?_⟩
    · by_cases he : (specs.filter (fieldFails payload)).map (·.name) = []
      · intro f hf
        have : specs.filter (fieldFails payload) = [] := by
          cases hfe : specs.filter (fieldFails payload) with
          | nil => rfl
          | cons a rest => rw [hfe] at he; simp at he
        by_contra hb
        have hmem : f ∈ specs.filter (fieldFails payload) :=
          List.mem_filter.mpr ⟨hf, by simpa using hb⟩
        rw [this] at hmem
        simp at hmem
      · simp [he] at h
    · by_cases he : (specs.filter (fieldFails payload)).map (·.name) = []
      · simp [he] at h; exact h.symm
      · simp [he] at h

theorem validate_error_of_fails {kind : String} {specs : List FieldSpec}
    {payload : Doc} {f : FieldSpec}
    (h : findKind SCHEMAS kind = some specs) (hf : f ∈ specs)
    (hfail : fieldFails payload f = true) :
    ∃ errs, validate kind payload = .error (.validationErr errs) ∧ f.name ∈ errs := by
  unfold validate
  rw [h]
  refine ⟨(specs.filter (fieldFails payload)).map (·.name), ?_, ?_⟩
  · have hmem : f.name ∈ (specs.filter (fieldFails payload)).map (·.name) :=
      List.mem_map.mpr ⟨f, List.mem_filter.mpr ⟨hf, hfail⟩, rfl⟩
    have hne : (specs.filter (fieldFails payload)).map (·.name) ≠ [] := by
      intro he
      rw [he] at hmem
      simp at hmem
    simp [hne]
  · exact List.mem_map.mpr ⟨f, List.mem_filter.mpr ⟨hf, hfail⟩, rfl⟩

theorem lookup_validated {payload : Doc} {specs : List FieldSpec} {f : FieldSpec} {v : Value}
    (hok : ∀ g ∈ specs, fieldFails payload g = false)
    (hnd : (specs.map FieldSpec.name).Nodup)
    (hf : f ∈ specs) (hr : fieldResult payload f = some (f.name, v)) :
    lookupField (specs.filterMap (fieldResult payload)) f.name = some v := by
  induction specs with
  | nil => simp at hf
  | cons g rest ih =>
    obtain ⟨w, hw⟩ := fieldResult_of_not_fails (hok g (by simp))
    rw [List.filterMap_cons, hw]
    rcases List.mem_cons.mp hf with hfg | hfr
    · subst hfg
      rw [hw] at hr
      simp only [Option.some.injEq, Prod.mk.injEq] at hr
      simp [lookupField, hr.2]
    · have hne : g.name ≠ f.name := by
        simp only [List.map_cons, List.nodup_cons] at hnd
        intro he
        exact hnd.1 (he ▸ List.mem_map.mpr ⟨f, hfr, rfl⟩)
      simp only [lookupField, hne, if_false]
      exact ih (fun x hx => hok x (by simp [hx])) (by simpa using hnd.of_cons) hfr

theorem findKind_mem : ∀ {l : List (String × List FieldSpec)} {kind : String}
    {specs : List FieldSpec}, findKind l kind = some specs → (kind, specs) ∈ l
  | [], _, _, h => by simp [findNs, findKind] at h
  | (k, ds) :: rest, kind, specs, h => by
    by_cases hk : k = kind
    · rw [findKind, if_pos hk] at h
      injection h with h2
      subst h2
      subst hk
      exact List.mem_cons_self _ _
    · rw [findKind, if_neg hk] at h
      exact List.mem_cons_of_mem _ (findKind_mem h)

theorem schemas_names_nodup : ∀ e ∈ SCHEMAS, ((e.2).map FieldSpec.name).Nodup := by decide

theorem findKind_SCHEMAS_nodup {kind : String} {specs : List FieldSpec}
    (h : findKind SCHEMAS kind = some specs) : (specs.map FieldSpec.name).Nodup :=
  schemas_names_nodup _ (findKind_mem h)

/-- Concrete enrollment documents used as fixtures for the list-filter
claims: one matching `course_id = "c1"`, one with a different value, one
missing the field entirely. -/
def enrDoc1 : Doc := [("course_id", .str "c1"), ("student_id", .str "s1")]

/-- Fixture enrollment with a different `course_id`. -/
def enrDoc2 : Doc := [("course_id", .str "c2"), ("student_id", .str "s1")]

/-- Fixture enrollment missing `course_id` entirely. -/
def enrDoc3 : Doc := [("student_id", .str "s9")]

/-- Fixture store: connected, holding the three enrollment fixtures. -/
def enrStore : Store :=
  ⟨.connected, [("enrollment", [enrDoc1, enrDoc2, enrDoc3])], 7, 3⟩

/-- C4: while the store handle is Uninitialized or Failed, both gateway
operations (create and list) result in the distinct, catchable
`StoreUnavailableError` value rather than a crash, and the
schema-introspection dump still succeeds under that same condition. -/
theorem c4_unavailable_store_is_caught (s : Store) (kind : String) (d filt : Doc)
    (h : s.handle = .uninitialized ∨ s.handle = .failed) :
    create_document s kind d = .error .storeUnavailableErr ∧
    get_documents s kind filt = .error .storeUnavailableErr ∧
    get_schema s = .ok SCHEMAS := by
  have hne : ¬ s.handle = .connected := by
    rcases h with h | h <;> simp [h]
  exact ⟨by simp [create_document, hne], by simp [get_documents, hne], rfl⟩

theorem c4_unavailable_store_is_caught_witness :
    ((Store.mk .uninitialized [] 0 0).handle = .uninitialized ∨
      (Store.mk .uninitialized [] 0 0).handle = .failed) ∧
    (create_document (Store.mk .uninitialized [] 0 0) "course" [] =
        .error .storeUnavailableErr ∧
      get_documents (Store.mk .uninitialized [] 0 0) "course" [] =
        .error .storeUnavailableErr ∧
      get_schema (Store.mk .uninitialized [] 0 0) = .ok SCHEMAS) :=
  ⟨Or.inl rfl, c4_unavailable_store_is_caught _ "course" [] [] (Or.inl rfl)⟩

/-- C3: on a connected store, `list(kind, filter)` returns exactly the
documents of the namespace satisfying every equality constraint of the
filter: a document is in the result iff it is in the namespace and each
filtered field is present with exactly the filtered value, so documents with
a different value and documents missing the field are excluded, and
multi-field filters are conjunctive exact-match. -/
theorem c3_list_filter_exact_match (s : Store) (kind : String) (filt : Doc)
    (items : List Doc) (hc : s.handle = .connected)
    (h : get_documents s kind filt = .ok items) :
    ∀ d : Doc, d ∈ items ↔
      d ∈ s.namespaceDocs kind ∧ ∀ p ∈ filt, lookupField d p.1 = some p.2 := by
  rw [get_documents_connected filt hc] at h
  injection h with h
  subst h
  intro d
  rw [List.mem_filter]
  exact and_congr_right fun _ => matchesFilter_iff filt d

theorem c3_list_filter_exact_match_witness :
    enrStore.handle = .connected ∧
    get_documents enrStore "enrollment" [("course_id", .str "c1")] = .ok [enrDoc1] ∧
    (∀ d : Doc, d ∈ [enrDoc1] ↔
      d ∈ enrStore.namespaceDocs "enrollment" ∧
      ∀ p ∈ [(("course_id" : String), Value.str "c1")], lookupField d p.1 = some p.2) :=
  ⟨rfl, rfl, c3_list_filter_exact_match enrStore "enrollment" _ [enrDoc1] rfl rfl⟩

/-- C10: at the public list interface, an empty-string query value is
treated as no filter at all: passing `course_id`, `student_id` or `user_id`
equal to the empty string leaves the enrollment and subscription list
operations identical to passing no value, and on a connected store every
document of the namespace is returned rather than only documents whose field
equals the empty string. -/
theorem c10_empty_string_means_no_filter (s : Store) :
    list_enrollments s (some "") (some "") = list_enrollments s none none ∧
    list_enrollments s (some "") none = list_enrollments s none none ∧
    list_enrollments s none (some "") = list_enrollments s none none ∧
    list_subscriptions s (some "") = list_subscriptions s none ∧
    (s.handle = .connected →
      list_enrollments s (some "") (some "") = .ok (s.namespaceDocs "enrollment") ∧
      list_subscriptions s (some "") = .ok (s.namespaceDocs "subscription")) := by
  refine ⟨rfl, rfl, rfl, rfl, fun hc => ⟨?_, ?_⟩⟩
  · show get_documents s "enrollment" [] = _
    rw [get_documents_connected [] hc]
    exact congrArg Except.ok (List.filter_eq_self.mpr fun d _ => matchesFilter_nil d)
  · show get_documents s "subscription" [] = _
    rw [get_documents_connected [] hc]
    exact congrArg Except.ok (List.filter_eq_self.mpr fun d _ => matchesFilter_nil d)

theorem c10_empty_string_means_no_filter_witness :
    list_enrollments enrStore (some "") (some "") =
      .ok (enrStore.namespaceDocs "enrollment") ∧
    list_enrollments enrStore (some "") (some "") = .ok [enrDoc1, enrDoc2, enrDoc3] :=
  ⟨((c10_empty_string_means_no_filter enrStore).2.2.2.2 rfl).1, by rfl⟩

/-- Whether the value a payload supplies for a field, if any, is well typed
(a field the payload omits imposes no type constraint). -/
def suppliedOk (payload : Doc) (f : FieldSpec) : Bool :=
  match lookupField payload f.name with
  | some v => typeOk f.type v
  | none => true

/-- The example payload of the defaults claim: a course supplying only the
two required fields. -/
def coursePayloadMin : Doc := [("title", .str "T"), ("teacher_id", .str "u1")]

/-- C2: for every payload supplying all required fields and typing every
supplied declared field correctly, validation succeeds and every declared
default is filled for the omitted optional fields (the witness instantiates
this at `validate("course", title = "T", teacher_id = "u1")`, whose result
carries `description = ""`, `tags = []`, `level = "beginner"`,
`is_published = false`). -/
theorem c2_validate_fills_defaults (kind : String) (specs : List FieldSpec)
    (payload : Doc) (hfind : findKind SCHEMAS kind = some specs)
    (hreq : ∀ f ∈ specs, f.default = none → (lookupField payload f.name).isSome = true)
    (htyped : ∀ f ∈ specs, suppliedOk payload f = true) :
    ∃ d, validate kind payload = .ok d ∧
      ∀ f ∈ specs, ∀ dv, lookupField payload f.name = none → f.default = some dv →
        lookupField d f.name = some dv := by
  have hok : ∀ f ∈ specs, fieldFails payload f = false := by
    intro f hf
    have ht := htyped f hf
    unfold suppliedOk at ht
    unfold fieldFails
    cases hv : lookupField payload f.name with
    | some v =>
      rw [hv] at ht
      have ht2 : typeOk f.type v = true := ht
      simp [ht2]
    | none =>
      cases hd : f.default with
      | some dv => simp
      | none =>
        have hco := hreq f hf hd
        rw [hv] at hco
        simp at hco
  refine ⟨_, validate_ok_of hfind hok, ?_⟩
  intro f hf dv hnone hdef
  exact lookup_validated hok (findKind_SCHEMAS_nodup hfind) hf (fieldResult_default hnone hdef)

theorem c2_validate_fills_defaults_witness :
    (findKind SCHEMAS "course" = some courseFields) ∧
    (∀ f ∈ courseFields, f.default = none →
      (lookupField coursePayloadMin f.name).isSome = true) ∧
    (∀ f ∈ courseFields, suppliedOk coursePayloadMin f = true) ∧
    (∃ d, validate "course" coursePayloadMin = .ok d ∧
      ∀ f ∈ courseFields, ∀ dv, lookupField coursePayloadMin f.name = none →
        f.default = some dv → lookupField d f.name = some dv) ∧
    validate "course" coursePayloadMin =
      .ok [ ("title", .str "T"), ("description", .str ""), ("teacher_id", .str "u1"),
            ("category", .null), ("tags", .list []), ("thumbnail_url", .null),
            ("level", .str "beginner"), ("is_published", .bool false) ] :=
  ⟨rfl, by decide, by decide,
    c2_validate_fills_defaults "course" courseFields coursePayloadMin rfl
      (by decide) (by decide),
    by rfl⟩

/-- C5: a payload setting an enumeration field to a value outside its
declared allowed set is rejected by validation with a `ValidationError`
naming that field, and the validate-then-insert composition returns the
error with the store unchanged, so the write never reaches storage. -/
theorem c5_enum_value_rejected (kind : String) (specs : List FieldSpec)
    (f : FieldSpec) (allowed : List String) (payload : Doc) (x : String) (s : Store)
    (hfind : findKind SCHEMAS kind = some specs) (hf : f ∈ specs)
    (ht : f.type = .lit allowed) (hx : lookupField payload f.name = some (.str x))
    (hmem : x ∉ allowed) :
    ∃ errs, validate kind payload = .error (.validationErr errs) ∧ f.name ∈ errs ∧
      createViaGateway kind payload s = (.error (.validationErr errs), s) := by
  have hfail : fieldFails payload f = true := by
    unfold fieldFails
    rw [hx, ht]
    simp only [typeOk, Bool.not_eq_true']
    cases hc : allowed.contains x
    · rfl
    · exact absurd (by simpa using hc) hmem
  obtain ⟨errs, hv, hm⟩ := validate_error_of_fails hfind hf hfail
  refine ⟨errs, hv, hm, ?_⟩
  unfold createViaGateway
  rw [hv]

theorem c5_enum_value_rejected_witness :
    (findKind SCHEMAS "course" = some courseFields) ∧
    ((⟨"level", .lit ["beginner", "intermediate", "advanced"],
        some (.str "beginner")⟩ : FieldSpec) ∈ courseFields) ∧
    ("expert" ∉ ["beginner", "intermediate", "advanced"]) ∧
    (∃ errs,
      validate "course"
          [("title", .str "T"), ("teacher_id", .str "u1"), ("level", .str "expert")] =
        .error (.validationErr errs) ∧
      "level" ∈ errs ∧
      createViaGateway "course"
          [("title", .str "T"), ("teacher_id", .str "u1"), ("level", .str "expert")]
          enrStore =
        (.error (.validationErr errs), enrStore)) :=
  ⟨rfl, by decide, by decide,
    c5_enum_value_rejected "course" courseFields
      ⟨"level", .lit ["beginner", "intermediate", "advanced"], some (.str "beginner")⟩
      ["beginner", "intermediate", "advanced"]
      [("title", .str "T"), ("teacher_id", .str "u1"), ("level", .str "expert")]
      "expert" enrStore rfl (by decide) rfl rfl (by decide)⟩

/-- C6: when two distinct declared fields both violate their constraints,
validation produces one `ValidationError` whose field list contains both —
and in fact the name of every failing field, not only the first
encountered. -/
theorem c6_error_lists_every_failing_field (kind : String) (specs : List FieldSpec)
    (payload : Doc) (f g : FieldSpec)
    (hfind : findKind SCHEMAS kind = some specs)
    (hf : f ∈ specs) (hg : g ∈ specs) (_hne : f.name ≠ g.name)
    (hffail : fieldFails payload f = true) (hgfail : fieldFails payload g = true) :
    validate kind payload =
      .error (.validationErr ((specs.filter (fieldFails payload)).map (·.name))) ∧
    f.name ∈ (specs.filter (fieldFails payload)).map (·.name) ∧
    g.name ∈ (specs.filter (fieldFails payload)).map (·.name) ∧
    ∀ e ∈ specs, fieldFails payload e = true →
      e.name ∈ (specs.filter (fieldFails payload)).map (·.name) := by
  have hmf : f.name ∈ (specs.filter (fieldFails payload)).map (·.name) :=
    List.mem_map.mpr ⟨f, List.mem_filter.mpr ⟨hf, hffail⟩, rfl⟩
  have hmg : g.name ∈ (specs.filter (fieldFails payload)).map (·.name) :=
    List.mem_map.mpr ⟨g, List.mem_filter.mpr ⟨hg, hgfail⟩, rfl⟩
  refine ⟨?_, hmf, hmg,
    fun e he hef => List.mem_map.mpr ⟨e, List.mem_filter.mpr ⟨he, hef⟩, rfl⟩⟩
  unfold validate
  rw [hfind]
  have hne2 : (specs.filter (fieldFails payload)).map (·.name) ≠ [] := by
    intro he
    rw [he] at hmf
    simp at hmf
  simp [hne2]

theorem c6_error_lists_every_failing_field_witness :
    (findKind SCHEMAS "course" = some courseFields) ∧
    ((⟨"title", .str, none⟩ : FieldSpec) ∈ courseFields) ∧
    ((⟨"level", .lit ["beginner", "intermediate", "advanced"],
        some (.str "beginner")⟩ : FieldSpec) ∈ courseFields) ∧
    (fieldFails [("level", .str "expert")] ⟨"title", .str, none⟩ = true) ∧
    (fieldFails [("level", .str "expert")]
      ⟨"level", .lit ["beginner", "intermediate", "advanced"],
        some (.str "beginner")⟩ = true) ∧
    (validate "course" [("level", .str "expert")] =
      .error (.validationErr
        ((courseFields.filter (fieldFails [("level", .str "expert")])).map (·.name))) ∧
     "title" ∈ (courseFields.filter (fieldFails [("level", .str "expert")])).map (·.name) ∧
     "level" ∈ (courseFields.filter (fieldFails [("level", .str "expert")])).map (·.name) ∧
     ∀ e ∈ courseFields, fieldFails [("level", .str "expert")] e = true →
       e.name ∈ (courseFields.filter (fieldFails [("level", .str "expert")])).map (·.name)) :=
  ⟨rfl, by decide, by decide, by decide, by decide,
    c6_error_lists_every_failing_field "course" courseFields [("level", .str "expert")]
      ⟨"title", .str, none⟩
      ⟨"level", .lit ["beginner", "intermediate", "advanced"], some (.str "beginner")⟩
      rfl (by decide) (by decide) (by decide) (by decide) (by decide)⟩

/-- The quiz question fixture whose `correct_index` (5) is out of range for
its two-element `options` list. -/
def quizBadQuestion : List (String × Value) :=
  [ ("question", .str "2+2?"),
    ("options", .list [.str "3", .str "4"]),
    ("correct_index", .int 5) ]

/-- A quiz payload containing the out-of-range question. -/
def quizBadPayload : Doc :=
  [ ("course_id", .str "c1"), ("title", .str "Q"),
    ("questions", .list [.dict quizBadQuestion]) ]

/-- C8: validation does not check that a quiz question's `correct_index` is
a valid index into its own `options` list: the fixture question has
`correct_index = 5` against a two-element options list, yet validation of
the quiz succeeds and the validate-then-insert composition accepts the
document on a connected store. -/
theorem c8_correct_index_not_range_checked :
    lookupField quizBadQuestion "correct_index" = some (.int 5) ∧
    (∃ opts, lookupField quizBadQuestion "options" = some (.list opts) ∧
      opts.length = 2 ∧ ¬ ((5 : Int) < opts.length)) ∧
    validate "quiz" quizBadPayload =
      .ok [ ("course_id", .str "c1"), ("title", .str "Q"),
            ("questions", .list [.dict quizBadQuestion]),
            ("time_limit_minutes", .null) ] ∧
    (createViaGateway "quiz" quizBadPayload ⟨.connected, [], 0, 0⟩).1 = .ok 0 :=
  ⟨rfl, ⟨[.str "3", .str "4"], rfl, rfl, by decide⟩, by rfl, by rfl⟩

/-- A fully validated course document (every declared field present), used
as the round-trip fixture. -/
def sampleCourseDoc : Doc :=
  [ ("title", .str "T"), ("description", .str ""), ("teacher_id", .str "u1"),
    ("category", .null), ("tags", .list []), ("thumbnail_url", .null),
    ("level", .str "beginner"), ("is_published", .bool false) ]

/-- A connected store holding no documents yet. -/
def emptyConnectedStore : Store := ⟨.connected, [], 0, 0⟩

/-- A sample course-creation request. -/
def sampleCourseReq : CreateCourseRequest :=
  ⟨"T", some "", "u1", none, [], none, "beginner"⟩

/-- C1: on a connected store whose namespace holds no document agreeing with
`d` on the declared fields, `create(kind, d)` followed by `list(kind, {})`
yields a result containing exactly one document whose declared fields equal
`d`'s declared fields; that document additionally carries the generated
identifier and the creation timestamp, and no declared field of `d` is
replaced by the stamping. -/
theorem c1_create_then_list_roundtrip (s : Store) (kind : String) (d : Doc)
    (hc : s.handle = .connected)
    (hid : lookupField d "_id" = none)
    (hcr : lookupField d "created_at" = none)
    (hdid : "_id" ∉ declaredFields kind)
    (hdcr : "created_at" ∉ declaredFields kind)
    (hnone : ∀ d2 ∈ s.namespaceDocs kind, declEq d2 d (declaredFields kind) = false) :
    ∃ id s2 items, create_document s kind d = .ok (id, s2) ∧
      get_documents s2 kind [] = .ok items ∧
      items.countP (fun x => declEq x d (declaredFields kind)) = 1 ∧
      ∀ x ∈ items, declEq x d (declaredFields kind) = true →
        lookupField x "_id" = some (.int (Int.ofNat id)) ∧
        lookupField x "created_at" = some (.time s.clock) ∧
        ∀ k ∈ declaredFields kind, lookupField x k = lookupField d k := by
  have hstamp : declEq (stampDoc d s.nextId s.clock) d (declaredFields kind) = true := by
    rw [declEq_iff]
    intro k hk
    exact stampDoc_lookup_other d s.nextId s.clock
      (fun he => hdid (he ▸ hk)) (fun he => hdcr (he ▸ hk))
  refine ⟨s.nextId,
    { handle := s.handle,
      data := insertNs s.data kind (stampDoc d s.nextId s.clock),
      nextId := s.nextId + 1, clock := s.clock + 1 },
    s.namespaceDocs kind ++ [stampDoc d s.nextId s.clock],
    create_document_connected hc, ?_, ?_, ?_⟩
  · have hgen : ∀ t : Store, t.handle = .connected →
        t.namespaceDocs kind = s.namespaceDocs kind ++ [stampDoc d s.nextId s.clock] →
        get_documents t kind [] =
          .ok (s.namespaceDocs kind ++ [stampDoc d s.nextId s.clock]) := by
      intro t htc htn
      rw [get_documents_connected [] htc, htn]
      exact congrArg Except.ok (List.filter_eq_self.mpr fun x _ => matchesFilter_nil x)
    exact hgen _ hc (namespaceDocs_insert s kind _)
  · rw [List.countP_append]
    have h0 : (s.namespaceDocs kind).countP
        (fun x => declEq x d (declaredFields kind)) = 0 :=
      List.countP_eq_zero.mpr fun x hx => by simp [hnone x hx]
    rw [h0]
    simp [List.countP_cons, hstamp]
  · intro x hx hdx
    rcases List.mem_append.mp hx with hmem | hmem
    · exact absurd hdx (by simp [hnone x hmem])
    · have hxe : x = stampDoc d s.nextId s.clock := by simpa using hmem
      subst hxe
      exact ⟨stampDoc_lookup_id d s.nextId s.clock hid,
        stampDoc_lookup_created d s.nextId s.clock hcr,
        (declEq_iff _ _ _).mp hstamp⟩

theorem c1_create_then_list_roundtrip_witness :
    (emptyConnectedStore.handle = .connected ∧
      lookupField sampleCourseDoc "_id" = none ∧
      lookupField sampleCourseDoc "created_at" = none ∧
      "_id" ∉ declaredFields "course" ∧
      "created_at" ∉ declaredFields "course" ∧
      (∀ d2 ∈ emptyConnectedStore.namespaceDocs "course",
        declEq d2 sampleCourseDoc (declaredFields "course") = false)) ∧
    (∃ id s2 items,
      create_document emptyConnectedStore "course" sampleCourseDoc = .ok (id, s2) ∧
      get_documents s2 "course" [] = .ok items ∧
      items.countP
        (fun x => declEq x sampleCourseDoc (declaredFields "course")) = 1 ∧
      ∀ x ∈ items, declEq x sampleCourseDoc (declaredFields "course") = true →
        lookupField x "_id" = some (.int (Int.ofNat id)) ∧
        lookupField x "created_at" = some (.time emptyConnectedStore.clock) ∧
        ∀ k ∈ declaredFields "course", lookupField x k = lookupField sampleCourseDoc k) :=
  ⟨⟨rfl, rfl, rfl, by decide, by decide, by decide⟩,
    c1_create_then_list_roundtrip emptyConnectedStore "course" sampleCourseDoc
      rfl rfl rfl (by decide) (by decide) (by decide)⟩

/-- C7: create is not idempotent — on a connected store, creating the same
document twice succeeds twice, returns two distinct identifiers, and leaves
two distinct stored documents in the namespace (the namespace grows by two;
nothing is deduplicated). -/
theorem c7_create_twice_two_documents (s : Store) (kind : String) (d : Doc)
    (hc : s.handle = .connected) (hid : lookupField d "_id" = none) :
    ∃ id1 s1 id2 s2, create_document s kind d = .ok (id1, s1) ∧
      create_document s1 kind d = .ok (id2, s2) ∧
      id1 ≠ id2 ∧
      s2.namespaceDocs kind =
        s.namespaceDocs kind ++ [stampDoc d id1 s.clock, stampDoc d id2 s1.clock] ∧
      stampDoc d id1 s.clock ≠ stampDoc d id2 s1.clock ∧
      lookupField (stampDoc d id1 s.clock) "_id" = some (.int (Int.ofNat id1)) ∧
      lookupField (stampDoc d id2 s1.clock) "_id" = some (.int (Int.ofNat id2)) := by
  refine ⟨s.nextId,
    { handle := s.handle,
      data := insertNs s.data kind (stampDoc d s.nextId s.clock),
      nextId := s.nextId + 1, clock := s.clock + 1 },
    s.nextId + 1, _,
    create_document_connected hc, create_document_connected hc, ?_, ?_, ?_, ?_, ?_⟩
  · exact Nat.ne_of_lt (Nat.lt_succ_self _)
  · rw [namespaceDocs_insert, namespaceDocs_insert, List.append_assoc]
    rfl
  · intro he
    have h1 := stampDoc_lookup_id d s.nextId s.clock hid
    have h2 := stampDoc_lookup_id d (s.nextId + 1) (s.clock + 1) hid
    rw [he, h2] at h1
    injection h1 with h3
    injection h3 with h4
    have h5 : s.nextId + 1 = s.nextId := Int.ofNat.inj h4
    omega
  · exact stampDoc_lookup_id d s.nextId s.clock hid
  · exact stampDoc_lookup_id d (s.nextId + 1) (s.clock + 1) hid

theorem c7_create_twice_two_documents_witness :
    (emptyConnectedStore.handle = .connected ∧
      lookupField sampleCourseDoc "_id" = none) ∧
    (∃ id1 s1 id2 s2,
      create_document emptyConnectedStore "course" sampleCourseDoc = .ok (id1, s1) ∧
      create_document s1 "course" sampleCourseDoc = .ok (id2, s2) ∧
      id1 ≠ id2 ∧
      s2.namespaceDocs "course" =
        emptyConnectedStore.namespaceDocs "course" ++
          [stampDoc sampleCourseDoc id1 emptyConnectedStore.clock,
            stampDoc sampleCourseDoc id2 s1.clock] ∧
      stampDoc sampleCourseDoc id1 emptyConnectedStore.clock ≠
        stampDoc sampleCourseDoc id2 s1.clock ∧
      lookupField (stampDoc sampleCourseDoc id1 emptyConnectedStore.clock) "_id" =
        some (.int (Int.ofNat id1)) ∧
      lookupField (stampDoc sampleCourseDoc id2 s1.clock) "_id" =
        some (.int (Int.ofNat id2))) :=
  ⟨⟨rfl, rfl⟩,
    c7_create_twice_two_documents emptyConnectedStore "course" sampleCourseDoc rfl rfl⟩

/-- C9: every course stored through the public course-creation operation has
`is_published = false`: the request shape has no `is_published` field, the
handler passes `is_published = False` to the model, and whenever
`create_course` succeeds the single document it appended to the "course"
namespace carries `is_published = false`. -/
theorem createViaGateway_ok_elim {kind : String} {payload : Doc} {s : Store}
    {id : Nat} {s2 : Store} (h : createViaGateway kind payload s = (.ok id, s2)) :
    ∃ dd, validate kind payload = .ok dd ∧ create_document s kind dd = .ok (id, s2) := by
  unfold createViaGateway at h
  cases hv : validate kind payload with
  | error e =>
    simp only [hv] at h
    simp at h
  | ok dd =>
    simp only [hv] at h
    refine ⟨dd, rfl, ?_⟩
    cases hcd : create_document s kind dd with
    | error e2 =>
      simp only [hcd] at h
      simp at h
    | ok p =>
      obtain ⟨nid, s3⟩ := p
      simp only [hcd] at h
      simp only [Prod.mk.injEq, Except.ok.injEq] at h
      rw [h.1, h.2]

theorem c9_created_courses_never_published (r : CreateCourseRequest) (s : Store)
    (id : Nat) (s2 : Store) (h : create_course r s = (.ok id, s2)) :
    lookupField (courseKwargs r) "is_published" = some (.bool false) ∧
    ∃ stored, s2.namespaceDocs "course" = s.namespaceDocs "course" ++ [stored] ∧
      lookupField stored "is_published" = some (.bool false) := by
  refine ⟨rfl, ?_⟩
  obtain ⟨dd, hv, hcd⟩ := createViaGateway_ok_elim h
  by_cases hc : s.handle = .connected
  · rw [create_document_connected hc] at hcd
    simp only [Except.ok.injEq, Prod.mk.injEq] at hcd
    obtain ⟨-, hs2⟩ := hcd
    refine ⟨stampDoc dd s.nextId s.clock, ?_, ?_⟩
    · rw [← hs2]
      exact namespaceDocs_insert s "course" _
    · rw [stampDoc_lookup_other dd s.nextId s.clock (by decide) (by decide)]
      obtain ⟨specs, hfind, hok, hdd⟩ := validate_ok_elim hv
      have hspecs : specs = courseFields := by
        have hrfl : findKind SCHEMAS "course" = some courseFields := rfl
        rw [hrfl] at hfind
        exact (Option.some.inj hfind).symm
      subst hspecs
      subst hdd
      exact @lookup_validated (courseKwargs r) courseFields
        ⟨"is_published", .bool, some (.bool false)⟩ (.bool false)
        hok (findKind_SCHEMAS_nodup hfind) (by decide)
        (fieldResult_present rfl rfl)
  · exfalso
    unfold create_document at hcd
    rw [if_neg hc] at hcd
    simp at hcd

theorem c9_created_courses_never_published_witness :
    create_course sampleCourseReq emptyConnectedStore =
      (.ok 0, (create_course sampleCourseReq emptyConnectedStore).2) ∧
    (lookupField (courseKwargs sampleCourseReq) "is_published" = some (.bool false) ∧
      ∃ stored,
        (create_course sampleCourseReq emptyConnectedStore).2.namespaceDocs "course" =
          emptyConnectedStore.namespaceDocs "course" ++ [stored] ∧
        lookupField stored "is_published" = some (.bool false)) :=
  ⟨rfl,
    c9_created_courses_never_published sampleCourseReq emptyConnectedStore 0
      (create_course sampleCourseReq emptyConnectedStore).2 rfl⟩

end EduSaaS
